import Mathlib

/-!
Verification of the adaptive polling/retry state machine of
`src/scripts/api_client.py` (class `SEMagiAPIClient`).

The embedding translates the two core methods:

* `get_task_results_with_retry` (source lines 229-278): a bounded-retry
  result fetch with escalating waits;
* `wait_for_completion` (source lines 280-466): the adaptive poll loop,
  with its estimate pre-wait phase, interval selection, error retry,
  polling limit and interrupt handling.

Modelling decisions, all taken from the source:

* Time is a `Nat` clock of elapsed seconds since `start_time`.  Every
  sleep the modelled claims exercise has an integer duration (the 1-second
  pre-wait ticks, the fixed 5-second error-retry sleep, and the interval
  branches 5/10/15 and the clamp of integer config values), so a `Nat`
  clock is exact.  The one float expression, `max(5, estimate_time * 0.1)`
  on source line 425, sits on a branch the source itself marks unreachable
  ("不应该到达这里") and no claim exercises; it is modelled with `Nat`
  floor division.
* The remote server is an oracle: `statusAnswers n` is the answer to the
  n-th `get_task_status` call of the session and `resultAnswers n` the
  answer to the n-th `get_task_results` call.  `get_task_status` raises
  `ValueError` on HTTP 404 (source line 197), modelled as `ApiError.notFound`;
  `get_task_results` raises `ValueError("任务尚未完成...")` on HTTP 409
  (source line 223, the "not ready" signal), modelled as `ApiError.notReady`,
  and `ValueError("任务结果不存在...")` on 404, modelled as `ApiError.notFound`;
  network failures (`requests.exceptions.RequestException`) and other HTTP
  errors are `ApiError.transport` and `ApiError.http`.
* `KeyboardInterrupt` is modelled by `interruptAtSleep`: the index (in the
  session-global count of `time.sleep` calls) of the sleep during which the
  user interrupt fires.  Python's exception rules are kept: the
  `except KeyboardInterrupt` handler on source line 446 only covers sleeps
  inside the `try` body of the poll loop; the phase-1 pre-wait sleeps
  (line 325) run before the loop, and the error-retry sleep (line 461) runs
  inside the `except Exception` handler, so an interrupt there propagates
  out of `wait_for_completion` as an exception.
* Python's `while True` loop is modelled with fuel; `none` means the fuel
  ran out before the loop returned or raised.
* Prints and progress displays are pure output and are dropped; the
  `_already_displayed` marker only matters to the caller's display logic.
-/

/-- Task lifecycle status strings recognised by the client
(`status_info.get('status', 'unknown')`, source line 346).  Any other
string behaves like `unknown`: not `completed` and not in
`['failed', 'error', 'cancelled']`, so the loop keeps polling. -/
inductive Status where
  | submitted
  | running
  | completed
  | failed
  | error
  | cancelled
  | unknown
  deriving DecidableEq, Repr

/-- Error classes of the two fetch helpers, as raised by
`get_task_status` / `get_task_results` (source lines 192-227).
`notReady` is `ValueError("任务尚未完成: ...")` (HTTP 409),
`notFound` is `ValueError("任务不存在/任务结果不存在: ...")` (HTTP 404),
`transport` is `requests.exceptions.RequestException`,
`http` is `requests.exceptions.HTTPError` for other status codes. -/
inductive ApiError where
  | notFound
  | notReady
  | transport
  | http
  deriving DecidableEq, Repr

/-- A status snapshot as returned by `get_task_status` (source line 195).
`hasResultField` and `resultTruthy` model the check
`'result' in status_info and status_info['result']` (source line 364). -/
structure StatusInfo where
  status : Status
  estimate_time : Option Nat
  message : String
  hasResultField : Bool
  resultTruthy : Bool
  deriving DecidableEq, Repr

/-- The polling configuration dictionary read on source lines 303-309,
with the same defaults as `self.polling_config.get(...)`. -/
structure PollingConfig where
  respect_estimate_time : Bool := true
  custom_interval_seconds : Nat := 5
  min_interval_seconds : Nat := 2
  max_interval_seconds : Nat := 30
  limited_retry_strategy : Bool := true
  max_retries : Nat := 3
  retry_on_error : Bool := true
  deriving DecidableEq, Repr

/-- Exceptions that can escape `wait_for_completion`:
`keyboardInterrupt` (uncaught `KeyboardInterrupt`),
`timeoutError` (`raise TimeoutError`, source line 342), and
`apiError` (a re-raised fetch failure, source lines 452 and 466). -/
inductive Exn where
  | keyboardInterrupt
  | timeoutError
  | apiError (e : ApiError)
  deriving DecidableEq, Repr

/-- Normal return values of `wait_for_completion`, keyed by the
`status` field of the returned dictionary:

* `completedEmbedded`: source line 372, the snapshot already embedded a
  truthy result payload, the result data is returned with
  `status = 'completed'`;
* `completedStatus`: source lines 381/389/394/400, a copy of the snapshot
  with `status` forced to `'completed'`;
* `failedLike`: source line 407, a copy of the snapshot with its terminal
  status (`failed`, `error` or `cancelled`);
* `interrupted`: source line 448, `{'status': 'interrupted', 'task_id': task_id}`;
* `pollingLimit`: source line 444, a copy of the snapshot with
  `status = 'polling_limit_reached'`. -/
inductive WaitReturn where
  | completedEmbedded (si : StatusInfo)
  | completedStatus (si : StatusInfo)
  | failedLike (si : StatusInfo) (st : Status)
  | interrupted (task_id : String)
  | pollingLimit (si : StatusInfo)
  deriving DecidableEq, Repr

/-- Observable events of one wait session: a status poll (a successful or
failed `get_task_status` call) happening at clock time `t`, and a sleep of
`dur` seconds starting at clock time `t`.  Newest event first. -/
inductive Event where
  | poll (t : Nat)
  | sleepEv (t : Nat) (dur : Nat)
  deriving DecidableEq, Repr

/-- The transient state of one wait session: the `Nat` clock (seconds
elapsed since `start_time`), the counters `check_count` and `error_count`
of source lines 297-298, the per-session call counts that index the
oracles, the session-global sleep count that indexes `interruptAtSleep`,
and the event trace. -/
structure WaitState where
  clock : Nat
  check_count : Nat
  error_count : Nat
  statusCalls : Nat
  resultCalls : Nat
  sleepCalls : Nat
  events : List Event
  deriving DecidableEq, Repr

/-- The fresh state at `start_time` (source lines 296-298). -/
def WaitState.init : WaitState :=
  { clock := 0, check_count := 0, error_count := 0,
    statusCalls := 0, resultCalls := 0, sleepCalls := 0, events := [] }

/-- The environment of one wait session: the oracle answers of the two
endpoints and the index of the sleep call (if any) during which the user
presses Ctrl-C. -/
structure Env where
  statusAnswers : Nat → Except ApiError StatusInfo
  resultAnswers : Nat → Except ApiError Unit
  interruptAtSleep : Option Nat

/-- One `time.sleep dur` call.  Returns the new state and whether a
`KeyboardInterrupt` fired during this sleep (in which case the clock does
not advance by the full duration; we model the interrupt as firing at the
start of the sleep). -/
def sleepM (env : Env) (s : WaitState) (dur : Nat) : WaitState × Bool :=
  if env.interruptAtSleep = some s.sleepCalls then
    ({ s with sleepCalls := s.sleepCalls + 1 }, true)
  else
    ({ s with clock := s.clock + dur, sleepCalls := s.sleepCalls + 1,
              events := Event.sleepEv s.clock dur :: s.events }, false)

/-- The phase-1 estimate pre-wait (source lines 316-325): `n` one-second
sleeps with progress display, no polling.  Returns the new state and
whether a `KeyboardInterrupt` fired; the pre-wait runs before the poll
loop's `try`, so an interrupt here propagates out of the method. -/
def preWaitLoop (env : Env) (s : WaitState) : Nat → WaitState × Bool
  | 0 => (s, false)
  | n + 1 =>
    match sleepM env s 1 with
    | (s', true) => (s', true)
    | (s', false) => preWaitLoop env s' n

/-- The interval selection of source lines 410-433, as a pure function of
the configuration, the estimate, the elapsed time and `check_count`.
The branch `max(5, estimate_time * 0.1)` (source line 425) is modelled
with `Nat` floor division; the source comments that this branch should be
unreachable because phase 1 already waited out the estimate. -/
def computeInterval (cfg : PollingConfig) (estimate_time elapsed check_count : Nat) : Nat :=
  if !cfg.respect_estimate_time then
    max cfg.min_interval_seconds (min cfg.custom_interval_seconds cfg.max_interval_seconds)
  else if 0 < estimate_time ∧ estimate_time ≤ elapsed then
    let overtime := elapsed - estimate_time
    if overtime < 30 then 5
    else if overtime < 120 then 10
    else 15
  else if 0 < estimate_time then
    max 5 (estimate_time / 10)
  else
    if check_count ≤ 3 then 5
    else if check_count ≤ 10 then 10
    else 15

/-- Result of one iteration of the `while True` poll loop:
either loop again from a new state (`continue` / falling through to the
next iteration), or leave the loop with a return value or an exception. -/
inductive IterOut where
  | again (s : WaitState)
  | finished (s : WaitState) (r : Except Exn WaitReturn)
  deriving Repr

/-- The session state carried out of one loop iteration, whichever way
the iteration ended. -/
def IterOut.state : IterOut → WaitState
  | .again s => s
  | .finished s _ => s

/-- One iteration of the poll loop of `wait_for_completion`
(source lines 337-466), transcribed branch by branch:

1. timeout check `elapsed > max_wait` (line 341);
2. `get_task_status` via the oracle; a failure goes to the
   `except Exception` handler (line 449): propagate if `retry_on_error`
   is false, else increment `error_count` and either sleep 5 s and retry
   (`error_count ≤ 3`) or re-raise (line 466).  The retry sleep sits
   inside the handler, so an interrupt there propagates;
3. on success: `check_count += 1`, `error_count = 0` (lines 347-348);
   the `completed` handling of lines 362-400 (embedded result, the
   `check_count ≤ 3` confirmation fetch whose `notReady` answer demotes
   the status to `running`, trust beyond 3 polls); terminal statuses
   (line 401); otherwise the interval sleep (line 435) — an interrupt
   there is caught and returns `interrupted` (line 448) — and the
   polling-limit check (line 438). -/
def waitIter (env : Env) (task_id : String) (cfg : PollingConfig)
    (estimate_time max_wait : Nat) (s : WaitState) : IterOut :=
  if max_wait < s.clock then
    .finished s (.error .timeoutError)
  else
    match env.statusAnswers s.statusCalls with
    | .error e =>
      let s1 := { s with statusCalls := s.statusCalls + 1,
                         events := Event.poll s.clock :: s.events }
      if !cfg.retry_on_error then
        .finished s1 (.error (.apiError e))
      else
        let s2 := { s1 with error_count := s1.error_count + 1 }
        if s2.error_count ≤ 3 then
          match sleepM env s2 5 with
          | (s3, true) => .finished s3 (.error .keyboardInterrupt)
          | (s3, false) => .again s3
        else
          .finished s2 (.error (.apiError e))
    | .ok si =>
      let s1 := { s with statusCalls := s.statusCalls + 1,
                         check_count := s.check_count + 1,
                         error_count := 0,
                         events := Event.poll s.clock :: s.events }
      let keepPolling : WaitState → IterOut := fun s2 =>
        let interval := computeInterval cfg estimate_time s2.clock s2.check_count
        match sleepM env s2 interval with
        | (s3, true) => .finished s3 (.ok (.interrupted task_id))
        | (s3, false) =>
          if cfg.limited_retry_strategy ∧ cfg.max_retries ≤ s3.check_count then
            .finished s3 (.ok (.pollingLimit si))
          else
            .again s3
      if si.status = .completed then
        if si.hasResultField ∧ si.resultTruthy then
          .finished s1 (.ok (.completedEmbedded si))
        else if s1.check_count ≤ 3 then
          let s2 := { s1 with resultCalls := s1.resultCalls + 1 }
          match env.resultAnswers s1.resultCalls with
          | .ok _ => .finished s2 (.ok (.completedStatus si))
          | .error .notReady => keepPolling s2
          | .error _ => .finished s2 (.ok (.completedStatus si))
        else
          .finished s1 (.ok (.completedStatus si))
      else if si.status = .failed ∨ si.status = .error ∨ si.status = .cancelled then
        .finished s1 (.ok (.failedLike si si.status))
      else
        keepPolling s1

/-- The fuel-indexed `while True` poll loop (source line 337);
`none` means the fuel ran out before the loop left. -/
def waitLoop (env : Env) (task_id : String) (cfg : PollingConfig)
    (estimate_time max_wait : Nat) : Nat → WaitState → WaitState × Option (Except Exn WaitReturn)
  | 0, s => (s, none)
  | fuel + 1, s =>
    match waitIter env task_id cfg estimate_time max_wait s with
    | .finished s' r => (s', some r)
    | .again s' => waitLoop env task_id cfg estimate_time max_wait fuel s'

/-- `wait_for_completion(task_id, estimate_time, max_wait)`
(source lines 280-466): phase-1 pre-wait when `estimate_time > 0` and
`respect_estimate_time` (an interrupt there escapes as an exception),
then the poll loop. -/
def wait_for_completion (env : Env) (task_id : String) (cfg : PollingConfig)
    (estimate_time : Nat) (max_wait : Nat := 1800) (fuel : Nat := 1000) :
    WaitState × Option (Except Exn WaitReturn) :=
  if 0 < estimate_time ∧ cfg.respect_estimate_time then
    match preWaitLoop env WaitState.init estimate_time with
    | (s, true) => (s, some (.error .keyboardInterrupt))
    | (s, false) => waitLoop env task_id cfg estimate_time max_wait fuel s
  else
    waitLoop env task_id cfg estimate_time max_wait fuel WaitState.init

/-- The escalating retry wait of `get_task_results_with_retry`
(source lines 259-264).  `estimate_time` is a Python `int`
(the method signature, line 229); `estimate_time // 2` is floor
division and `int(estimate_time * 1.5)` truncates `1.5 * e`, i.e.
`⌊3e/2⌋`, both rendered with `Nat` division. -/
def retryWaitTime (retry_count estimate_time : Nat) : Nat :=
  if retry_count = 1 then max 5 (estimate_time / 2)
  else if retry_count = 2 then max 10 estimate_time
  else max 15 (3 * estimate_time / 2)

/-- Accumulated observations of one `get_task_results_with_retry` run:
the number of `get_task_results` calls made and the successive retry
waits, oldest first. -/
structure RetryTrace where
  calls : Nat
  waits : List Nat
  deriving DecidableEq, Repr

/-- The `while retry_count <= max_retries` loop of
`get_task_results_with_retry` (source lines 244-278), with the result
endpoint as an oracle (`answers n` is the n-th call's answer).
A `notReady` failure increments `retry_count` and either re-raises
(`retry_count > max_retries`, line 256) or waits `retryWaitTime` and
retries; every other failure re-raises at once (lines 275 and 278).
`none` means the fuel ran out. -/
def retryLoop (answers : Nat → Except ApiError Unit) (estimate_time max_retries : Nat) :
    Nat → Nat → RetryTrace → RetryTrace × Option (Except ApiError Unit)
  | 0, _, tr => (tr, none)
  | fuel + 1, retry_count, tr =>
    if retry_count ≤ max_retries then
      match answers tr.calls with
      | .ok r => ({ tr with calls := tr.calls + 1 }, some (.ok r))
      | .error .notReady =>
        let tr1 := { tr with calls := tr.calls + 1 }
        let rc := retry_count + 1
        if max_retries < rc then
          (tr1, some (.error .notReady))
        else
          let w := retryWaitTime rc estimate_time
          retryLoop answers estimate_time max_retries fuel rc
            { tr1 with waits := tr1.waits ++ [w] }
      | .error e => ({ tr with calls := tr.calls + 1 }, some (.error e))
    else
      (tr, none)

/-- `get_task_results_with_retry(task_id, estimate_time, max_retries)`
(source lines 229-278). -/
def get_task_results_with_retry (answers : Nat → Except ApiError Unit)
    (estimate_time : Nat) (max_retries : Nat := 3) : RetryTrace × Option (Except ApiError Unit) :=
  retryLoop answers estimate_time max_retries (max_retries + 2) 0 { calls := 0, waits := [] }

/-! Concrete snapshots and environments used to instantiate the claims. -/

/-- A snapshot of a task that is still in progress. -/
def runningSnap : StatusInfo :=
  { status := .running, estimate_time := none, message := "",
    hasResultField := false, resultTruthy := false }

/-- A snapshot reporting `completed` without an embedded result payload. -/
def completedNoResult : StatusInfo :=
  { status := .completed, estimate_time := none, message := "",
    hasResultField := false, resultTruthy := false }

/-- A server that always reports `running` and never has results ready;
the user never presses Ctrl-C. -/
def envRunning : Env :=
  { statusAnswers := fun _ => .ok runningSnap,
    resultAnswers := fun _ => .error .notReady,
    interruptAtSleep := none }

/-- A server for which every status query answers HTTP 404, i.e. every
`get_task_status` call raises the `NotFound` `ValueError` of source
line 197. -/
def envNotFound : Env :=
  { statusAnswers := fun _ => .error .notFound,
    resultAnswers := fun _ => .error .notReady,
    interruptAtSleep := none }

/-- A server for which every status query fails with a transport error. -/
def envTransportErr : Env :=
  { statusAnswers := fun _ => .error .transport,
    resultAnswers := fun _ => .error .notReady,
    interruptAtSleep := none }

/-- `envRunning`, except that the user presses Ctrl-C during the very
first sleep of the session. -/
def envRunningInterrupt0 : Env :=
  { statusAnswers := fun _ => .ok runningSnap,
    resultAnswers := fun _ => .error .notReady,
    interruptAtSleep := some 0 }

/-- `envTransportErr`, except that the user presses Ctrl-C during the
very first sleep of the session. -/
def envTransportErrInterrupt0 : Env :=
  { statusAnswers := fun _ => .error .transport,
    resultAnswers := fun _ => .error .notReady,
    interruptAtSleep := some 0 }

/-- On poll 1 the server reports `completed` without an embedded result;
afterwards it reports `running`; results are never ready. -/
def envOptimisticCompleted : Env :=
  { statusAnswers := fun n => if n = 0 then .ok completedNoResult else .ok runningSnap,
    resultAnswers := fun _ => .error .notReady,
    interruptAtSleep := none }

/-- `true` unless the event is a status poll issued strictly before
clock time `e`. -/
def eventAfterEstimate (e : Nat) : Event → Bool
  | .poll t => e ≤ t
  | .sleepEv _ _ => true

/-- No status poll in the trace was issued during the first `e` seconds
of the wait (a poll at clock time `t` is early when `t < e`). -/
def noEarlyPolls (e : Nat) (l : List Event) : Prop :=
  ∀ ev ∈ l, eventAfterEstimate e ev = true

/-! Claim theorems. -/

/-- C5: In `get_task_results_with_retry`, for every estimate value `e`,
the wait before retry attempt 1 is `max(5, e/2)` (floor division, source
line 260), before attempt 2 is `max(10, e)`, and before attempt 3 and
beyond is `max(15, int(e*1.5)) = max(15, ⌊3e/2⌋)`; after the fixed
maximum of 3 retries, a 4th `NotReady` answer propagates and the helper
fails permanently: against a server whose result endpoint always answers
`NotReady`, the helper makes exactly 4 calls, waits the three escalating
times, and raises `NotReady`. -/
theorem c5_result_retry_escalation (e : Nat) :
    get_task_results_with_retry (fun _ => .error .notReady) e =
      ({ calls := 4, waits := [max 5 (e / 2), max 10 e, max 15 (3 * e / 2)] },
        some (.error .notReady)) ∧
    (∀ k, 3 ≤ k → retryWaitTime k e = max 15 (3 * e / 2)) := by
  constructor
  · rfl
  · intro k hk
    unfold retryWaitTime
    rw [if_neg (by omega), if_neg (by omega)]

/-- C5 witness: the spec's Scenario D, `e = 20`: the three waits are
`10, 20, 30` and the 4th `NotReady` is fatal. -/
theorem c5_result_retry_escalation_witness :
    get_task_results_with_retry (fun _ => .error .notReady) 20 =
      ({ calls := 4, waits := [10, 20, 30] }, some (.error .notReady)) ∧
    retryWaitTime 3 20 = 30 := by
  refine ⟨?_, ?_⟩
  · have h := (c5_result_retry_escalation 20).1
    simpa using h
  · simpa using (c5_result_retry_escalation 20).2 3 (by norm_num)

/-- C9: with `respect_estimate_time = true` and no estimate
(`estimate_time = 0`), the inter-poll interval depends on the poll count
only: 5 s for polls 1-3, 10 s for polls 4-10, 15 s for polls 11 and
later; in particular the 4th poll uses a 10-second interval.  The last
conjunct checks this end to end on a run against an always-`running`
server: the sleep after the 4th poll (at clock 15) lasts 10 seconds
while the first three last 5 seconds. -/
theorem c9_no_estimate_interval_ramp (cfg : PollingConfig)
    (hresp : cfg.respect_estimate_time = true) :
    (∀ elapsed n, computeInterval cfg 0 elapsed n =
        if n ≤ 3 then 5 else if n ≤ 10 then 10 else 15) ∧
    (∀ elapsed elapsed' n,
        computeInterval cfg 0 elapsed n = computeInterval cfg 0 elapsed' n) ∧
    (∀ elapsed, computeInterval cfg 0 elapsed 4 = 10) ∧
    (wait_for_completion envRunning "task"
        { limited_retry_strategy := false } 0 1800 4).1.events =
      [Event.sleepEv 15 10, Event.poll 15, Event.sleepEv 10 5, Event.poll 10,
       Event.sleepEv 5 5, Event.poll 5, Event.sleepEv 0 5, Event.poll 0] := by
  refine ⟨?_, ?_, ?_, rfl⟩
  · intro elapsed n
    simp [computeInterval, hresp]
  · intro elapsed elapsed' n
    simp [computeInterval, hresp]
  · intro elapsed
    simp [computeInterval, hresp]

/-- C9 witness: the ramp at the default configuration. -/
theorem c9_no_estimate_interval_ramp_witness :
    computeInterval {} 0 0 3 = 5 ∧ computeInterval {} 0 7 4 = 10 ∧
    computeInterval {} 0 200 11 = 15 := by
  have h := c9_no_estimate_interval_ramp {} rfl
  refine ⟨?_, ?_, ?_⟩
  · simpa using h.1 0 3
  · simpa using h.2.2.1 7
  · simpa using h.1 200 11

/-- C6: with `limited_retry_strategy = true` and `max_retries = 3` (the
defaults of source lines 307-308, i.e. the default `PollingConfig`),
`wait_for_completion` performs at most 3 status polls — here exactly 3 —
before returning `polling_limit_reached`, for every server whose status
answers all report `running`. -/
theorem c6_polling_limit_after_three_polls
    (f : Nat → StatusInfo) (g : Nat → Except ApiError Unit)
    (hrun : ∀ n, (f n).status = .running) :
    (wait_for_completion
        { statusAnswers := fun n => .ok (f n), resultAnswers := g,
          interruptAtSleep := none } "task" {} 0 1800 5).2
      = some (.ok (.pollingLimit (f 2))) ∧
    (wait_for_completion
        { statusAnswers := fun n => .ok (f n), resultAnswers := g,
          interruptAtSleep := none } "task" {} 0 1800 5).1.statusCalls = 3 ∧
    (wait_for_completion
        { statusAnswers := fun n => .ok (f n), resultAnswers := g,
          interruptAtSleep := none } "task" {} 0 1800 5).1.check_count = 3 := by
  refine ⟨?_, ?_, ?_⟩ <;>
    simp [wait_for_completion, waitLoop, waitIter, sleepM, computeInterval,
      WaitState.init, hrun]

/-- C6 witness: the always-`running` server with full snapshots. -/
theorem c6_polling_limit_after_three_polls_witness :
    (wait_for_completion envRunning "task" {} 0 1800 5).2
      = some (.ok (.pollingLimit runningSnap)) ∧
    (wait_for_completion envRunning "task" {} 0 1800 5).1.statusCalls = 3 := by
  have h := c6_polling_limit_after_three_polls (fun _ => runningSnap)
    (fun _ => .error .notReady) (fun _ => rfl)
  exact ⟨h.1, h.2.1⟩

/-- C1 counterexample: the claim says a `NotFound` failure of the status
fetch propagates immediately, unretried, regardless of `retry_on_error`.
On the code it does not: `get_task_status` raises `ValueError` on
HTTP 404 (source line 197) and the poll loop's `except Exception`
handler (source line 449) catches it like any other failure, so with the
default configuration (`retry_on_error = true`) a session against a
server that always answers 404 makes 4 status calls with three 5-second
error-retry sleeps before the error finally propagates. -/
theorem c1_notFound_is_retried_counterexample :
    wait_for_completion envNotFound "task" {} 0 =
      ({ clock := 15, check_count := 0, error_count := 4, statusCalls := 4,
         resultCalls := 0, sleepCalls := 3,
         events := [Event.poll 15, Event.sleepEv 10 5, Event.poll 10,
                    Event.sleepEv 5 5, Event.poll 5, Event.sleepEv 0 5,
                    Event.poll 0] },
       some (.error (.apiError .notFound))) := by
  rfl

/-- C1 amended: a `NotFound` failure of the status fetch is handled by
the same local error-retry path as every other status-fetch failure:
when `retry_on_error` is false it propagates to the caller immediately
on the first failure, and when `retry_on_error` is true it is retried up
to 3 consecutive times with 5-second sleeps, the 4th consecutive failure
propagating — for any polling configuration and any server answering
`NotFound` to the first four status calls. -/
theorem c1_notFound_error_path (cfg : PollingConfig)
    (answers : Nat → Except ApiError StatusInfo)
    (h4 : ∀ n, n ≤ 3 → answers n = .error .notFound)
    (g : Nat → Except ApiError Unit) :
    (cfg.retry_on_error = false →
      wait_for_completion
          { statusAnswers := answers, resultAnswers := g,
            interruptAtSleep := none } "task" cfg 0 1800 10 =
        ({ clock := 0, check_count := 0, error_count := 0, statusCalls := 1,
           resultCalls := 0, sleepCalls := 0, events := [Event.poll 0] },
         some (.error (.apiError .notFound)))) ∧
    (cfg.retry_on_error = true →
      wait_for_completion
          { statusAnswers := answers, resultAnswers := g,
            interruptAtSleep := none } "task" cfg 0 1800 10 =
        ({ clock := 15, check_count := 0, error_count := 4, statusCalls := 4,
           resultCalls := 0, sleepCalls := 3,
           events := [Event.poll 15, Event.sleepEv 10 5, Event.poll 10,
                      Event.sleepEv 5 5, Event.poll 5, Event.sleepEv 0 5,
                      Event.poll 0] },
         some (.error (.apiError .notFound)))) := by
  constructor
  · intro hret
    simp [wait_for_completion, waitLoop, waitIter, sleepM, WaitState.init,
      hret, h4 0 (by norm_num)]
  · intro hret
    simp [wait_for_completion, waitLoop, waitIter, sleepM, WaitState.init,
      hret, h4 0 (by norm_num), h4 1 (by norm_num), h4 2 (by norm_num),
      h4 3 (by norm_num)]

/-- C1 amended witness: the always-404 server under the default
configuration and under `retry_on_error = false`. -/
theorem c1_notFound_error_path_witness :
    wait_for_completion envNotFound "task" { retry_on_error := false } 0 1800 10 =
      ({ clock := 0, check_count := 0, error_count := 0, statusCalls := 1,
         resultCalls := 0, sleepCalls := 0, events := [Event.poll 0] },
       some (.error (.apiError .notFound))) ∧
    (wait_for_completion envNotFound "task" {} 0 1800 10).2 =
      some (.error (.apiError .notFound)) := by
  constructor
  · exact (c1_notFound_error_path { retry_on_error := false }
      envNotFound.statusAnswers (fun _ _ => rfl) envNotFound.resultAnswers).1 rfl
  · have h := (c1_notFound_error_path {}
      envNotFound.statusAnswers (fun _ _ => rfl) envNotFound.resultAnswers).2 rfl
    rw [show envNotFound =
      { statusAnswers := envNotFound.statusAnswers,
        resultAnswers := envNotFound.resultAnswers,
        interruptAtSleep := none } from rfl]
    rw [h]

/-- After a successful status fetch, whatever the snapshot and however
the iteration ends, the iteration's outgoing state has its
consecutive-error counter reset to 0 and its poll count incremented by
exactly one (source lines 347-348); no later branch of the iteration
touches either counter. -/
theorem waitIter_success_counters (env : Env) (task_id : String)
    (cfg : PollingConfig) (estimate_time max_wait : Nat) (s : WaitState)
    (si : StatusInfo) (hclock : ¬ max_wait < s.clock)
    (hst : env.statusAnswers s.statusCalls = .ok si) :
    (waitIter env task_id cfg estimate_time max_wait s).state.error_count = 0 ∧
    (waitIter env task_id cfg estimate_time max_wait s).state.check_count
      = s.check_count + 1 := by
  unfold waitIter
  rw [if_neg hclock, hst]
  dsimp only
  by_cases hI : env.interruptAtSleep = some s.sleepCalls <;>
    simp only [sleepM, hI, ite_true, ite_false, if_pos, if_neg, reduceCtorEq,
      not_false_eq_true] <;>
    (repeat' split) <;>
    simp [IterOut.state]

/-- C3 counterexample: the claim says a repeated successful `getStatus`
returning the same snapshot does not bring the session closer to the
`limited_retry_strategy` / `max_retries` polling limit.  On the code it
does: `check_count` — the very counter the limit check of source line
438 compares against `max_retries` — is incremented on every successful
fetch (source line 347).  Against a server that answers every poll with
the one identical `running` snapshot, under the default configuration
(`limited_retry_strategy = true`, `max_retries = 3`), the poll count
rises 1, 2, 3 across the identical polls and the session ends with
`polling_limit_reached`. -/
theorem c3_identical_polls_advance_budget_counterexample :
    (waitLoop envRunning "task" {} 0 1800 1 WaitState.init).1.check_count = 1 ∧
    (waitLoop envRunning "task" {} 0 1800 2 WaitState.init).1.check_count = 2 ∧
    wait_for_completion envRunning "task" {} 0 =
      ({ clock := 15, check_count := 3, error_count := 0, statusCalls := 3,
         resultCalls := 0, sleepCalls := 3,
         events := [Event.sleepEv 10 5, Event.poll 10, Event.sleepEv 5 5,
                    Event.poll 5, Event.sleepEv 0 5, Event.poll 0] },
       some (.ok (.pollingLimit runningSnap))) := by
  exact ⟨rfl, rfl, rfl⟩

/-- C3 amended: a repeated successful `getStatus` call returning the same
snapshot leaves the consecutive-error counter at 0 and does not advance
the error-retry budget; but every successful status fetch — identical
snapshot or not — increments the poll count by one, and that poll count
is exactly what the `limited_retry_strategy` / `max_retries` limit check
consumes: once the incremented count reaches `max_retries` (with the
snapshot still `running` and no interrupt), the iteration returns
`polling_limit_reached`. -/
theorem c3_success_keeps_error_budget_but_spends_poll_budget
    (env : Env) (task_id : String) (cfg : PollingConfig)
    (estimate_time max_wait : Nat) (s : WaitState) (si : StatusInfo)
    (hclock : ¬ max_wait < s.clock)
    (hst : env.statusAnswers s.statusCalls = .ok si) :
    (waitIter env task_id cfg estimate_time max_wait s).state.error_count = 0 ∧
    (waitIter env task_id cfg estimate_time max_wait s).state.check_count
      = s.check_count + 1 ∧
    (si.status = .running → cfg.limited_retry_strategy = true →
      cfg.max_retries ≤ s.check_count + 1 →
      env.interruptAtSleep ≠ some s.sleepCalls →
      waitIter env task_id cfg estimate_time max_wait s =
        .finished
          { clock := s.clock + computeInterval cfg estimate_time s.clock (s.check_count + 1),
            check_count := s.check_count + 1, error_count := 0,
            statusCalls := s.statusCalls + 1, resultCalls := s.resultCalls,
            sleepCalls := s.sleepCalls + 1,
            events := Event.sleepEv s.clock
                (computeInterval cfg estimate_time s.clock (s.check_count + 1)) ::
              Event.poll s.clock :: s.events }
          (.ok (.pollingLimit si))) := by
  refine ⟨(waitIter_success_counters env task_id cfg estimate_time max_wait
      s si hclock hst).1,
    (waitIter_success_counters env task_id cfg estimate_time max_wait
      s si hclock hst).2, ?_⟩
  intro hrun hlim hmax hnint
  unfold waitIter
  rw [if_neg hclock, hst]
  simp [hrun, sleepM, hnint, hlim, hmax]

/-- C3 amended witness: one identical-`running`-snapshot iteration from
the fresh session state, and the limit-reaching iteration from a state
with poll count 2 under the default configuration. -/
theorem c3_success_keeps_error_budget_but_spends_poll_budget_witness :
    ((waitIter envRunning "task" {} 0 1800 WaitState.init).state.error_count = 0 ∧
      (waitIter envRunning "task" {} 0 1800 WaitState.init).state.check_count = 1) ∧
    waitIter envRunning "task" {} 0 1800 { WaitState.init with check_count := 2 } =
      .finished
        { clock := 5, check_count := 3, error_count := 0, statusCalls := 1,
          resultCalls := 0, sleepCalls := 1,
          events := [Event.sleepEv 0 5, Event.poll 0] }
        (.ok (.pollingLimit runningSnap)) := by
  constructor
  · have h := c3_success_keeps_error_budget_but_spends_poll_budget
      envRunning "task" {} 0 1800 WaitState.init runningSnap (by decide) rfl
    exact ⟨h.1, h.2.1⟩
  · have h := c3_success_keeps_error_budget_but_spends_poll_budget
      envRunning "task" {} 0 1800 { WaitState.init with check_count := 2 }
      runningSnap (by decide) rfl
    have h3 := h.2.2 rfl rfl (by decide) (by decide)
    simpa using h3

/-- C7: with `retry_on_error = true`, against a server whose first four
status fetches all fail, the waiter retries the fetch 3 consecutive
times sleeping 5 seconds between attempts, and the 4th consecutive
failure propagates its own underlying error unretried (4 status calls,
3 sleeps, outcome `errs 3`); moreover any successful status fetch
resets the consecutive-error counter to 0, so the budget counts
consecutive failures, not cumulative ones. -/
theorem c7_error_retry_is_consecutive (cfg : PollingConfig)
    (hret : cfg.retry_on_error = true) (errs : Nat → ApiError)
    (answers : Nat → Except ApiError StatusInfo)
    (herr : ∀ n, n ≤ 3 → answers n = .error (errs n))
    (g : Nat → Except ApiError Unit) :
    wait_for_completion
        { statusAnswers := answers, resultAnswers := g,
          interruptAtSleep := none } "task" cfg 0 1800 10 =
      ({ clock := 15, check_count := 0, error_count := 4, statusCalls := 4,
         resultCalls := 0, sleepCalls := 3,
         events := [Event.poll 15, Event.sleepEv 10 5, Event.poll 10,
                    Event.sleepEv 5 5, Event.poll 5, Event.sleepEv 0 5,
                    Event.poll 0] },
       some (.error (.apiError (errs 3)))) ∧
    (∀ (env : Env) (task_id : String) (estimate_time max_wait : Nat)
        (s : WaitState) (si : StatusInfo), ¬ max_wait < s.clock →
      env.statusAnswers s.statusCalls = .ok si →
      (waitIter env task_id cfg estimate_time max_wait s).state.error_count = 0) := by
  constructor
  · simp [wait_for_completion, waitLoop, waitIter, sleepM, WaitState.init, hret,
      herr 0 (by norm_num), herr 1 (by norm_num), herr 2 (by norm_num),
      herr 3 (by norm_num)]
  · intro env task_id estimate_time max_wait s si hclock hst
    exact (waitIter_success_counters env task_id cfg estimate_time max_wait
      s si hclock hst).1

/-- C7 witness: the always-transport-failing server under the default
configuration, and the counter reset from a state that already has 3
consecutive errors on its budget. -/
theorem c7_error_retry_is_consecutive_witness :
    wait_for_completion envTransportErr "task" {} 0 1800 10 =
      ({ clock := 15, check_count := 0, error_count := 4, statusCalls := 4,
         resultCalls := 0, sleepCalls := 3,
         events := [Event.poll 15, Event.sleepEv 10 5, Event.poll 10,
                    Event.sleepEv 5 5, Event.poll 5, Event.sleepEv 0 5,
                    Event.poll 0] },
       some (.error (.apiError .transport))) ∧
    (waitIter envRunning "task" {} 0 1800
        { WaitState.init with error_count := 3 }).state.error_count = 0 := by
  have h := c7_error_retry_is_consecutive {} rfl (fun _ => .transport)
    envTransportErr.statusAnswers (fun _ _ => rfl) envTransportErr.resultAnswers
  constructor
  · rw [show envTransportErr =
      { statusAnswers := envTransportErr.statusAnswers,
        resultAnswers := envTransportErr.resultAnswers,
        interruptAtSleep := none } from rfl]
    exact h.1
  · exact h.2 envRunning "task" 0 1800
      { WaitState.init with error_count := 3 } runningSnap (by decide) rfl

/-- C2: when a snapshot reports `completed` with no embedded result
payload: as long as the poll count (after this fetch) is at most 3, the
waiter makes one extra `get_task_results` call (`resultCalls` grows by
one), and a `NotReady` answer from it demotes the status to `running`
for this iteration, so (absent an interrupt and with the polling limit
not yet hit this iteration) the loop continues polling instead of
terminating; once the poll count exceeds 3, the iteration returns the
`completed` outcome immediately and makes no confirmation call
(`resultCalls` unchanged). -/
theorem c2_completed_confirmation_first_three_polls (env : Env)
    (task_id : String) (cfg : PollingConfig) (estimate_time max_wait : Nat)
    (s : WaitState) (si : StatusInfo) (hclock : ¬ max_wait < s.clock)
    (hst : env.statusAnswers s.statusCalls = .ok si)
    (hcomp : si.status = .completed)
    (hnores : ¬ (si.hasResultField = true ∧ si.resultTruthy = true)) :
    (s.check_count + 1 ≤ 3 →
      env.resultAnswers s.resultCalls = .error .notReady →
      env.interruptAtSleep ≠ some s.sleepCalls →
      ¬ (cfg.limited_retry_strategy = true ∧ cfg.max_retries ≤ s.check_count + 1) →
      waitIter env task_id cfg estimate_time max_wait s =
        .again
          { clock := s.clock + computeInterval cfg estimate_time s.clock (s.check_count + 1),
            check_count := s.check_count + 1, error_count := 0,
            statusCalls := s.statusCalls + 1, resultCalls := s.resultCalls + 1,
            sleepCalls := s.sleepCalls + 1,
            events := Event.sleepEv s.clock
                (computeInterval cfg estimate_time s.clock (s.check_count + 1)) ::
              Event.poll s.clock :: s.events }) ∧
    (3 < s.check_count + 1 →
      waitIter env task_id cfg estimate_time max_wait s =
        .finished
          { clock := s.clock, check_count := s.check_count + 1,
            error_count := 0, statusCalls := s.statusCalls + 1,
            resultCalls := s.resultCalls, sleepCalls := s.sleepCalls,
            events := Event.poll s.clock :: s.events }
          (.ok (.completedStatus si))) := by
  constructor
  · intro h3 hres hnint hnlim
    unfold waitIter
    rw [if_neg hclock, hst]
    simp [hcomp, hnores, h3, hres, sleepM, hnint, hnlim]
  · intro h4
    have h4' : ¬ (s.check_count + 1 ≤ 3) := by omega
    unfold waitIter
    rw [if_neg hclock, hst]
    simp [hcomp, hnores, h4']

/-- C2 witness: the optimistic-completion server (`completed` without a
result on poll 1, results not ready): the confirmation call happens and
the loop continues; and from a session state that already counted 5
polls, the same snapshot is returned as `completed` with no extra result
call. -/
theorem c2_completed_confirmation_first_three_polls_witness :
    waitIter envOptimisticCompleted "task" { limited_retry_strategy := false }
        0 1800 WaitState.init =
      .again
        { clock := 5, check_count := 1, error_count := 0, statusCalls := 1,
          resultCalls := 1, sleepCalls := 1,
          events := [Event.sleepEv 0 5, Event.poll 0] } ∧
    waitIter envOptimisticCompleted "task" { limited_retry_strategy := false }
        0 1800 { WaitState.init with check_count := 5 } =
      .finished
        { clock := 0, check_count := 6, error_count := 0, statusCalls := 1,
          resultCalls := 0, sleepCalls := 0, events := [Event.poll 0] }
        (.ok (.completedStatus completedNoResult)) := by
  constructor
  · have h := (c2_completed_confirmation_first_three_polls envOptimisticCompleted
      "task" { limited_retry_strategy := false } 0 1800 WaitState.init
      completedNoResult (by decide) rfl rfl (by decide)).1
      (by decide) rfl (by decide) (by decide)
    simpa using h
  · have h := (c2_completed_confirmation_first_three_polls envOptimisticCompleted
      "task" { limited_retry_strategy := false } 0 1800
      { WaitState.init with check_count := 5 }
      completedNoResult (by decide) rfl rfl (by decide)).2 (by decide)
    simpa using h

/-- C10 (implicit): a failed status fetch never increments the poll
count — whichever way the error iteration ends, its outgoing state
carries `check_count` unchanged, so error retries do not consume the
`limited_retry_strategy` / `max_retries` polling budget; yet every loop
iteration first re-checks elapsed time against `max_wait` (an iteration
entered with the clock past `max_wait` raises `TimeoutError` before
fetching anything), so the timeout bound covers the error-retry path:
concretely, with `max_wait = 7` against an always-failing server the
session raises `TimeoutError` on the third iteration, after 2 failed
fetches and 0 polls counted. -/
theorem c10_error_path_poll_budget_and_timeout :
    (∀ (env : Env) (task_id : String) (cfg : PollingConfig)
        (estimate_time max_wait : Nat) (s : WaitState) (err : ApiError),
      ¬ max_wait < s.clock →
      env.statusAnswers s.statusCalls = .error err →
      (waitIter env task_id cfg estimate_time max_wait s).state.check_count
        = s.check_count) ∧
    (∀ (env : Env) (task_id : String) (cfg : PollingConfig)
        (estimate_time max_wait : Nat) (s : WaitState),
      max_wait < s.clock →
      waitIter env task_id cfg estimate_time max_wait s =
        .finished s (.error .timeoutError)) ∧
    wait_for_completion envTransportErr "task" {} 0 7 =
      ({ clock := 10, check_count := 0, error_count := 2, statusCalls := 2,
         resultCalls := 0, sleepCalls := 2,
         events := [Event.sleepEv 5 5, Event.poll 5, Event.sleepEv 0 5,
                    Event.poll 0] },
       some (.error .timeoutError)) := by
  refine ⟨?_, ?_, rfl⟩
  · intro env task_id cfg estimate_time max_wait s err hclock hst
    unfold waitIter
    rw [if_neg hclock, hst]
    dsimp only
    by_cases hI : env.interruptAtSleep = some s.sleepCalls <;>
      simp only [sleepM, hI, ite_true, ite_false, if_pos, if_neg, reduceCtorEq,
        not_false_eq_true] <;>
      (repeat' split) <;>
      simp [IterOut.state]
  · intro env task_id cfg estimate_time max_wait s h
    unfold waitIter
    rw [if_pos h]

/-- C10 witness: one failed-fetch iteration from the fresh state keeps
the poll count at 0, and an iteration entered past the deadline times
out at once. -/
theorem c10_error_path_poll_budget_and_timeout_witness :
    (waitIter envTransportErr "task" {} 0 1800 WaitState.init).state.check_count
      = 0 ∧
    waitIter envTransportErr "task" {} 0 7 { WaitState.init with clock := 100 } =
      .finished { WaitState.init with clock := 100 } (.error .timeoutError) := by
  constructor
  · exact c10_error_path_poll_budget_and_timeout.1 envTransportErr "task" {}
      0 1800 WaitState.init .transport (by decide) rfl
  · exact c10_error_path_poll_budget_and_timeout.2.1 envTransportErr "task" {}
      0 7 { WaitState.init with clock := 100 } (by decide)

/-- If the user interrupt fires during one of the `n` one-second sleeps
of the phase-1 pre-wait, the pre-wait reports the interrupt. -/
theorem preWaitLoop_interrupts (env : Env) (j : Nat)
    (hj : env.interruptAtSleep = some j) :
    ∀ (n : Nat) (s : WaitState), s.sleepCalls ≤ j → j < s.sleepCalls + n →
      (preWaitLoop env s n).2 = true := by
  intro n
  induction n with
  | zero =>
    intro s h1 h2
    omega
  | succ n ih =>
    intro s h1 h2
    unfold preWaitLoop sleepM
    by_cases hcase : j = s.sleepCalls
    · simp [hj, hcase]
    · have hne : ¬ env.interruptAtSleep = some s.sleepCalls := by
        rw [hj]
        simp
        omega
      simp only [hne, ite_false, if_neg, not_false_eq_true]
      exact ih _ (by simp; omega) (by simp; omega)

/-- C4 counterexample: the claim says an interrupt at any suspension
point of `wait_for_completion` — including the phase-1 estimate pre-wait
and the error-retry sleeps — returns an `interrupted` outcome.  On the
code neither of those two suspension points is covered by the
`except KeyboardInterrupt` handler of source line 446: an interrupt
during the phase-1 pre-wait (the first sleep of a session with
`estimate_time = 5`), or during the 5-second error-retry sleep (the
first sleep of a session whose first status fetch failed), propagates
`KeyboardInterrupt` out of `wait_for_completion` instead of returning
`{'status': 'interrupted', 'task_id': ...}`. -/
theorem c4_interrupt_raises_counterexample :
    wait_for_completion envRunningInterrupt0 "task" {} 5 =
      ({ clock := 0, check_count := 0, error_count := 0, statusCalls := 0,
         resultCalls := 0, sleepCalls := 1, events := [] },
       some (.error .keyboardInterrupt)) ∧
    wait_for_completion envTransportErrInterrupt0 "task" {} 0 =
      ({ clock := 0, check_count := 0, error_count := 1, statusCalls := 1,
         resultCalls := 0, sleepCalls := 1, events := [Event.poll 0] },
       some (.error .keyboardInterrupt)) := by
  exact ⟨rfl, rfl⟩

/-- C4 amended: only the suspension points inside the poll loop's `try`
body are converted into the `interrupted` outcome: an interrupt during
an inter-poll sleep makes the iteration return
`{'status': 'interrupted', 'task_id': task_id}`, carrying the task
identifier; whereas an interrupt during any phase-1 pre-wait sleep, or
during an error-retry sleep, propagates out of `wait_for_completion` as
a `KeyboardInterrupt` exception. -/
theorem c4_interrupt_handling_by_suspension_point :
    (∀ (env : Env) (task_id : String) (cfg : PollingConfig)
        (e max_wait fuel j : Nat),
      cfg.respect_estimate_time = true → 0 < e →
      env.interruptAtSleep = some j → j < e →
      (wait_for_completion env task_id cfg e max_wait fuel).2 =
        some (.error .keyboardInterrupt)) ∧
    (∀ (env : Env) (task_id : String) (cfg : PollingConfig)
        (estimate_time max_wait : Nat) (s : WaitState) (si : StatusInfo),
      ¬ max_wait < s.clock →
      env.statusAnswers s.statusCalls = .ok si → si.status = .running →
      env.interruptAtSleep = some s.sleepCalls →
      waitIter env task_id cfg estimate_time max_wait s =
        .finished
          { clock := s.clock, check_count := s.check_count + 1,
            error_count := 0, statusCalls := s.statusCalls + 1,
            resultCalls := s.resultCalls, sleepCalls := s.sleepCalls + 1,
            events := Event.poll s.clock :: s.events }
          (.ok (.interrupted task_id))) ∧
    (∀ (env : Env) (task_id : String) (cfg : PollingConfig)
        (estimate_time max_wait : Nat) (s : WaitState) (err : ApiError),
      ¬ max_wait < s.clock →
      env.statusAnswers s.statusCalls = .error err →
      cfg.retry_on_error = true → s.error_count + 1 ≤ 3 →
      env.interruptAtSleep = some s.sleepCalls →
      waitIter env task_id cfg estimate_time max_wait s =
        .finished
          { clock := s.clock, check_count := s.check_count,
            error_count := s.error_count + 1, statusCalls := s.statusCalls + 1,
            resultCalls := s.resultCalls, sleepCalls := s.sleepCalls + 1,
            events := Event.poll s.clock :: s.events }
          (.error .keyboardInterrupt)) := by
  refine ⟨?_, ?_, ?_⟩
  · intro env task_id cfg e max_wait fuel j hresp he hj hje
    unfold wait_for_completion
    rw [if_pos ⟨he, hresp⟩]
    rcases hpre : preWaitLoop env WaitState.init e with ⟨s2, b⟩
    have hb := preWaitLoop_interrupts env j hj e WaitState.init
      (by simp [WaitState.init]) (by simp [WaitState.init]; omega)
    rw [hpre] at hb
    dsimp only at hb
    subst hb
    simp
  · intro env task_id cfg estimate_time max_wait s si hclock hst hrun hint
    unfold waitIter
    rw [if_neg hclock, hst]
    simp [hrun, sleepM, hint]
  · intro env task_id cfg estimate_time max_wait s err hclock hst hret hcnt hint
    unfold waitIter
    rw [if_neg hclock, hst]
    simp [hret, sleepM, hint, hcnt]

/-- C4 amended witness: the three suspension-point behaviours at
concrete sessions: a phase-1 interrupt raises, an inter-poll-sleep
interrupt returns `interrupted "task"`, and an error-retry-sleep
interrupt raises. -/
theorem c4_interrupt_handling_by_suspension_point_witness :
    (wait_for_completion envRunningInterrupt0 "task" {} 5 1800 1000).2 =
      some (.error .keyboardInterrupt) ∧
    waitIter envRunningInterrupt0 "task" {} 0 1800 WaitState.init =
      .finished
        { clock := 0, check_count := 1, error_count := 0, statusCalls := 1,
          resultCalls := 0, sleepCalls := 1, events := [Event.poll 0] }
        (.ok (.interrupted "task")) ∧
    waitIter envTransportErrInterrupt0 "task" {} 0 1800 WaitState.init =
      .finished
        { clock := 0, check_count := 0, error_count := 1, statusCalls := 1,
          resultCalls := 0, sleepCalls := 1, events := [Event.poll 0] }
        (.error .keyboardInterrupt) := by
  refine ⟨?_, ?_, ?_⟩
  · exact c4_interrupt_handling_by_suspension_point.1 envRunningInterrupt0
      "task" {} 5 1800 1000 0 rfl (by norm_num) rfl (by norm_num)
  · have h := c4_interrupt_handling_by_suspension_point.2.1 envRunningInterrupt0
      "task" {} 0 1800 WaitState.init runningSnap (by decide) rfl rfl rfl
    simpa using h
  · have h := c4_interrupt_handling_by_suspension_point.2.2
      envTransportErrInterrupt0 "task" {} 0 1800 WaitState.init .transport
      (by decide) rfl rfl (by decide) rfl
    simpa using h

/-- Prepending a poll event at a time not before `e` preserves
`noEarlyPolls e`. -/
theorem noEarlyPolls_cons_poll (e t : Nat) (l : List Event) (h : e ≤ t)
    (hl : noEarlyPolls e l) : noEarlyPolls e (Event.poll t :: l) := by
  intro ev hev
  rcases List.mem_cons.mp hev with h1 | h1
  · subst h1
    simpa [eventAfterEstimate] using h
  · exact hl ev h1

/-- Prepending a sleep event preserves `noEarlyPolls e`. -/
theorem noEarlyPolls_cons_sleep (e t d : Nat) (l : List Event)
    (hl : noEarlyPolls e l) : noEarlyPolls e (Event.sleepEv t d :: l) := by
  intro ev hev
  rcases List.mem_cons.mp hev with h1 | h1
  · subst h1
    simp [eventAfterEstimate]
  · exact hl ev h1

/-- Without an interrupt, the phase-1 pre-wait of `n` one-second sleeps
finishes normally, advances the clock by exactly `n` seconds, makes no
status call, and adds only sleep events to the trace. -/
theorem preWaitLoop_no_interrupt (env : Env)
    (hnone : env.interruptAtSleep = none) :
    ∀ (n : Nat) (s : WaitState),
      (preWaitLoop env s n).2 = false ∧
      (preWaitLoop env s n).1.clock = s.clock + n ∧
      (preWaitLoop env s n).1.statusCalls = s.statusCalls ∧
      (∀ e, noEarlyPolls e s.events →
        noEarlyPolls e (preWaitLoop env s n).1.events) := by
  intro n
  induction n with
  | zero =>
    intro s
    exact ⟨rfl, rfl, rfl, fun e h => h⟩
  | succ n ih =>
    intro s
    unfold preWaitLoop sleepM
    simp only [hnone, reduceCtorEq, ite_false, if_neg, not_false_eq_true]
    refine ⟨(ih _).1, ?_, ?_, ?_⟩
    · rw [(ih _).2.1]
      simp
      omega
    · rw [(ih _).2.2.1]
    · intro e h
      exact (ih _).2.2.2 e (noEarlyPolls_cons_sleep e s.clock 1 s.events h)

/-- One poll-loop iteration started at or after clock time `eBound`,
with a trace clean of early polls, keeps the clock at or after `eBound`
and the trace clean of early polls — every status poll it adds happens
at the current clock. -/
theorem waitIter_no_early_polls (env : Env) (task_id : String)
    (cfg : PollingConfig) (estimate_time max_wait eBound : Nat)
    (s : WaitState) (hclk : eBound ≤ s.clock)
    (hpolls : noEarlyPolls eBound s.events) :
    eBound ≤ (waitIter env task_id cfg estimate_time max_wait s).state.clock ∧
    noEarlyPolls eBound
      (waitIter env task_id cfg estimate_time max_wait s).state.events := by
  unfold waitIter
  dsimp only
  by_cases hI : env.interruptAtSleep = some s.sleepCalls <;>
    simp only [sleepM, hI, ite_true, ite_false, if_pos, if_neg, reduceCtorEq,
      not_false_eq_true] <;>
    (repeat' split) <;>
    refine ⟨by simp [IterOut.state]; omega, ?_⟩ <;>
    simp only [IterOut.state] <;>
    first
      | exact hpolls
      | exact noEarlyPolls_cons_poll eBound s.clock s.events hclk hpolls
      | exact noEarlyPolls_cons_sleep eBound s.clock _ _
          (noEarlyPolls_cons_poll eBound s.clock s.events hclk hpolls)

/-- The poll loop preserves "no status poll before clock time `eBound`"
whenever it starts at or after `eBound`. -/
theorem waitLoop_no_early_polls (env : Env) (task_id : String)
    (cfg : PollingConfig) (estimate_time max_wait eBound : Nat) :
    ∀ (fuel : Nat) (s : WaitState), eBound ≤ s.clock →
      noEarlyPolls eBound s.events →
      noEarlyPolls eBound
        (waitLoop env task_id cfg estimate_time max_wait fuel s).1.events := by
  intro fuel
  induction fuel with
  | zero =>
    intro s h1 h2
    exact h2
  | succ n ih =>
    intro s h1 h2
    have h := waitIter_no_early_polls env task_id cfg estimate_time max_wait
      eBound s h1 h2
    unfold waitLoop
    rcases hit : waitIter env task_id cfg estimate_time max_wait s with s' | ⟨s', r⟩
    · rw [hit] at h
      dsimp only [IterOut.state] at h
      dsimp only
      exact ih s' h.1 h.2
    · rw [hit] at h
      dsimp only [IterOut.state] at h
      dsimp only
      exact h.2

/-- C8: for every estimate `e > 0` with `respect_estimate_time = true`
and no interrupt, `wait_for_completion` issues zero status polls during
the first `e` seconds of the wait — every poll event in the session
trace carries a clock time `≥ e` — because phase 1 suspends, without
any status call, for the full estimate duration (the pre-wait ends with
the clock at exactly `e`, zero status calls made and no poll in the
trace), and only then does the poll loop begin. -/
theorem c8_no_polls_during_estimate (env : Env) (task_id : String)
    (cfg : PollingConfig) (e max_wait fuel : Nat)
    (hresp : cfg.respect_estimate_time = true) (he : 0 < e)
    (hnone : env.interruptAtSleep = none) :
    noEarlyPolls e (wait_for_completion env task_id cfg e max_wait fuel).1.events ∧
    (preWaitLoop env WaitState.init e).1.clock = e ∧
    (preWaitLoop env WaitState.init e).1.statusCalls = 0 ∧
    noEarlyPolls e (preWaitLoop env WaitState.init e).1.events := by
  have hpre := preWaitLoop_no_interrupt env hnone e WaitState.init
  have hinitpolls : noEarlyPolls e (WaitState.init).events := by
    intro ev hev
    simp [WaitState.init] at hev
  refine ⟨?_, by simpa [WaitState.init] using hpre.2.1,
    by simpa [WaitState.init] using hpre.2.2.1, hpre.2.2.2 e hinitpolls⟩
  unfold wait_for_completion
  rw [if_pos ⟨he, hresp⟩]
  rcases hp : preWaitLoop env WaitState.init e with ⟨s2, b⟩
  rw [hp] at hpre
  dsimp only at hpre
  rcases hpre with ⟨hb, hclk, _, hev⟩
  subst hb
  dsimp only
  refine waitLoop_no_early_polls env task_id cfg e max_wait e fuel s2 ?_ ?_
  · rw [hclk]
    simp [WaitState.init]
  · exact hev e hinitpolls

/-- C8 witness: a concrete session with `e = 2` against the
always-`running` server: the trace has no poll before clock 2, and the
pre-wait ends at clock 2 with no status call made. -/
theorem c8_no_polls_during_estimate_witness :
    noEarlyPolls 2 (wait_for_completion envRunning "task" {} 2 1800 5).1.events ∧
    (preWaitLoop envRunning WaitState.init 2).1.clock = 2 ∧
    (preWaitLoop envRunning WaitState.init 2).1.statusCalls = 0 := by
  have h := c8_no_polls_during_estimate envRunning "task" {} 2 1800 5
    rfl (by norm_num) rfl
  exact ⟨h.1, h.2.1, h.2.2.1⟩
